import Mathlib

/-!
Formal model of the microtojson JSON serializer (repository rkta/microtojson)
and of its test harness.

The repository sources available are `src/mtojson.h` (the data-description
types `json_kv`, `json_array`, the tag enumeration `json_value_type`, and the
declaration of `generate_json`) and `src/test_mtojson.c` (the test harness).
The implementation file `mtojson.c` is not present, so the serializer itself
is modelled from the specification (spec.md §3, §4.1), while the harness is
modelled directly from `src/test_mtojson.c`.
-/

namespace Mtojson

/-- Modelled from the spec: the closed value vocabulary of §3 (the
implementation file `mtojson.c` is absent from `src/`; `src/mtojson.h` only
declares the tag enumeration and the opaque-reference structs).  Following
§9's reading of the tagged-dispatch pattern, the opaque reference plus tag is
modelled as a closed sum: boolean (`t_to_boolean`), signed integer
(`t_to_integer`), unsigned integer (`t_to_uinteger`), quoted string
(`t_to_string`), raw pre-formatted value (`t_to_value`), nested object
(`t_to_object`, a member-entry sequence whose terminating sentinel is the end
of the Lean list), and array descriptor (`t_to_array`, carrying an opaque
value reference — `none` models a null pointer — and an explicit element
count). -/
inductive JValue : Type where
  | vBool (b : Bool)
  | vInt (n : Int)
  | vUInt (n : Nat)
  | vString (s : String)
  | vValue (s : String)
  | vObject (kvs : List (String × JValue))
  | vArray (value : Option (List JValue)) (count : Nat)

/-- Modelled from the spec: a member-entry sequence (§3), in caller-given
order; the C sentinel entry with a null key is modelled by the end of the
list. -/
abbrev JObject := List (String × JValue)

/-- Decimal digit `d` (`0 ≤ d ≤ 9`) as its ASCII character. -/
def digitChar (d : Nat) : Char := Char.ofNat (48 + d)

/-- Fuel-driven decimal rendering helper: writes the decimal digits of `n`,
most significant first, given enough fuel (`n < 10 ^ fuel` suffices; the
wrapper always supplies enough). -/
def natDigitsAux : Nat → Nat → List Char
  | 0, _ => []
  | fuel + 1, n =>
    if n < 10 then [digitChar n]
    else natDigitsAux fuel (n / 10) ++ [digitChar (n % 10)]

/-- Modelled from the spec: an unsigned integer renders in decimal, unquoted
(§4.1). -/
def natDigits (n : Nat) : List Char := natDigitsAux (n + 1) n

/-- Modelled from the spec: a signed integer renders in decimal with a
leading minus sign when negative, unquoted (§4.1). -/
def intChars : Int → List Char
  | Int.ofNat n => natDigits n
  | Int.negSucc n => '-' :: natDigits (n + 1)

mutual

/-- Modelled from the spec: rendering of one JSON value per the §4.1
formatting table — booleans as the literals `true`/`false`, integers in
decimal, strings quoted with the bytes verbatim (no escaping), raw values
verbatim and unquoted, objects and arrays rendered recursively.  An array
whose reference is null renders only its brackets (its elements are never
read; with a positive count that input is an unchecked caller error, §7). -/
def renderValue : JValue → List Char
  | .vBool true => "true".data
  | .vBool false => "false".data
  | .vInt n => intChars n
  | .vUInt n => natDigits n
  | .vString s => '"' :: s.data ++ ['"']
  | .vValue s => s.data
  | .vObject kvs => renderObject kvs
  | .vArray none _ => "[]".data
  | .vArray (some l) c => '[' :: renderElems l c ++ [']']

/-- Modelled from the spec: an object renders as `\x7b` + members + `\x7d`
(§4.1); an empty member sequence renders as exactly the two braces. -/
def renderObject (kvs : List (String × JValue)) : List Char :=
  '\x7b' :: renderMembers kvs ++ ['\x7d']

/-- Modelled from the spec: members render in caller-given order as
`"key": value`, joined by `", "` (§4.1); no sorting, no deduplication (§3). -/
def renderMembers : List (String × JValue) → List Char
  | [] => []
  | (k, v) :: rest =>
    '"' :: k.data ++ "\": ".data ++ renderValue v
      ++ (if rest.isEmpty then [] else ", ".data) ++ renderMembers rest

/-- Modelled from the spec: the first `count` elements of an array render
joined by `", "` (§4.1); `count = 0` renders nothing regardless of the
reference.  A count exceeding the referenced sequence is an unchecked caller
error (§7); the model then stops at the end of the list. -/
def renderElems : List JValue → Nat → List Char
  | _, 0 => []
  | [], _ + 1 => []
  | v :: rest, n + 1 =>
    renderValue v ++ (if n = 0 ∨ rest.isEmpty then [] else ", ".data)
      ++ renderElems rest n

end

/-- Modelled from the spec: the null terminator byte appended to a completed
document (§4.1 step 5). -/
def nulChar : Char := Char.ofNat 0

/-- Modelled from the spec: the complete serialized document of a top-level
member sequence, including the null terminator (§4.1). -/
def jsonDoc (kv : JObject) : List Char :=
  renderObject kv ++ [nulChar]

/-- Modelled from the spec: bounded byte-by-byte emission into the output
buffer (§4.1 step 4).  Each byte is written only after checking that its
offset lies strictly below the declared capacity `cap`; at the first byte
that does not fit, emission aborts, yielding `none` together with the
partially written buffer (partial writes within bounds are permitted on the
failure path, §4.1).  On completion it yields the next free offset. -/
def writeBounded (cap : Nat) : List Char → Nat → List Char → Option Nat × List Char
  | buf, pos, [] => (some pos, buf)
  | buf, pos, c :: cs =>
    if pos < cap then writeBounded cap (buf.set pos c) (pos + 1) cs
    else (none, buf)

/-- Modelled from the spec: `generate_json(out, kv, len)` as declared in
`src/mtojson.h:29` (the implementation file `mtojson.c` is absent from
`src/`).  The top-level member sequence is rendered as a JSON object, the
null terminator is appended, and the document is emitted into the buffer
under the declared capacity `len`.  On success the routine returns the byte
count written excluding the terminator; on failure — the document including
its terminator needs more than `len` bytes — it returns the sentinel `0`
(§4.1).  The spec leaves the budget-accounting strategy open (§9); this model
checks capacity byte by byte during emission.  The C buffer is the `List
Char` argument (its length is the physical allocation, which may exceed the
declared capacity); the result pairs the return value with the buffer's final
contents. -/
def generate_json (out : List Char) (kv : JObject) (len : Nat) : Nat × List Char :=
  let r := writeBounded len out 0 (jsonDoc kv)
  (match r.1 with
   | some pos => pos - 1
   | none => 0,
   r.2)

/-! Harness model, from `src/test_mtojson.c`. -/

/-- Modelled from `src/test_mtojson.c`: the bytes of a C string up to (not
including) its first null byte, as read by `strcmp` in `check_result`. -/
def cString (l : List Char) : List Char :=
  l.takeWhile (fun c => c ≠ nulChar)

/-- Modelled from `src/test_mtojson.c:50`: `check_result` compares the
generated buffer with the expected literal via `strcmp` and reports `1`
(failed) exactly when they differ as C strings. -/
def check_result (expected : String) (result : List Char) : Bool :=
  cString result != cString expected.data

/-- One test scenario of `src/test_mtojson.c`: the member sequence handed to
`generate_json` and the expected literal; every test function builds
`len = strlen(expected) + 1`, a zeroed buffer `char result[len]`, and calls
`run_test` followed by `check_result`. -/
structure Scenario where
  jkv : JObject
  expected : String

/-- Outcome of running the harness: an immediate `exit(code)` on a safety
violation, or normal completion with the count of failed tests. -/
inductive HarnessResult : Type where
  | aborted (code : Nat)
  | finished (failedCount : Nat)
deriving DecidableEq

/-- Modelled from `src/test_mtojson.c:34` (`run_test`) together with the
shape every `test_json_*` function shares: the buffer of `len =
strlen(expected) + 1` bytes is zeroed; `generate_json` is first called with
capacity `len - 1` — a nonzero return is an undetected overflow and exits
with status 125 — and then, on the same buffer, with capacity `len` — a zero
return is a spuriously detected overflow and exits with status 124;
otherwise `check_result` decides whether the test failed. -/
def runTest (s : Scenario) : Option Nat × Bool :=
  let len := s.expected.length + 1
  let buf0 := List.replicate len nulChar
  let r1 := generate_json buf0 s.jkv (len - 1)
  if r1.1 ≠ 0 then (some 125, true)
  else
    let r2 := generate_json r1.2 s.jkv len
    if r2.1 = 0 then (some 124, true)
    else (none, check_result s.expected r2.2)

/-- Modelled from `src/test_mtojson.c:594` (`main`, batch mode): scenarios
run in order, a safety-violation exit aborts the whole run immediately, and
otherwise the exit status is the count of failed tests. -/
def runTests : List Scenario → Nat → HarnessResult
  | [], failed => .finished failed
  | s :: rest, failed =>
    match runTest s with
    | (some code, _) => .aborted code
    | (none, f) => runTests rest (failed + if f then 1 else 0)

/-! The seventeen test scenarios of `src/test_mtojson.c`, in the order of
`exec_test` (`src/test_mtojson.c:531`).  Each scenario records the member
sequence built by the corresponding `test_json_*` function and the expected
literal.  Braces inside string literals are written with their ASCII escapes
`\x7b` and `\x7d`. -/

/-- Scenario 1, `test_json_integer` (`src/test_mtojson.c:109`). -/
def sInteger : Scenario := ⟨[("key", .vInt 1)], "\x7b\"key\": 1\x7d"⟩

/-- Scenario 2, `test_json_integer_two` (`src/test_mtojson.c:128`): two
members sharing the key `"key"`. -/
def sIntegerTwo : Scenario :=
  ⟨[("key", .vInt (-32767)), ("key", .vInt 32767)],
   "\x7b\"key\": -32767, \"key\": 32767\x7d"⟩

/-- Scenario 3, `test_json_string` (`src/test_mtojson.c:72`). -/
def sString : Scenario := ⟨[("key", .vString "value")], "\x7b\"key\": \"value\"\x7d"⟩

/-- Scenario 4, `test_json_boolean` (`src/test_mtojson.c:90`). -/
def sBoolean : Scenario := ⟨[("key", .vBool true)], "\x7b\"key\": true\x7d"⟩

/-- Scenario 5, `test_json_valuetype` (`src/test_mtojson.c:513`): a raw
`t_to_value` member whose text is deliberately not valid JSON. -/
def sValuetype : Scenario :=
  ⟨[("key", .vValue "This is not valid \x7b\x7dJSON!")],
   "\x7b\"key\": This is not valid \x7b\x7dJSON!\x7d"⟩

/-- Scenario 6, `test_json_array_integer` (`src/test_mtojson.c:169`). -/
def sArrayInteger : Scenario :=
  ⟨[("array", .vArray (some [.vInt 1, .vInt 2]) 2)], "\x7b\"array\": [1, 2]\x7d"⟩

/-- Scenario 7, `test_json_array_boolean` (`src/test_mtojson.c:213`). -/
def sArrayBoolean : Scenario :=
  ⟨[("array", .vArray (some [.vBool true, .vBool false]) 2)],
   "\x7b\"array\": [true, false]\x7d"⟩

/-- Scenario 8, `test_json_array_string` (`src/test_mtojson.c:191`). -/
def sArrayString : Scenario :=
  ⟨[("array", .vArray (some [.vString "1", .vString "23"]) 2)],
   "\x7b\"array\": [\"1\", \"23\"]\x7d"⟩

/-- Inner three-string array descriptor shared by scenarios 9 and 11
(`src/test_mtojson.c:245`). -/
def innerArr123 : JValue :=
  .vArray (some [.vString "1", .vString "2", .vString "3"]) 3

/-- Scenario 9, `test_json_array_array` (`src/test_mtojson.c:235`). -/
def sArrayArray : Scenario :=
  ⟨[("array", .vArray (some [innerArr123, innerArr123]) 2)],
   "\x7b\"array\": [[\"1\", \"2\", \"3\"], [\"1\", \"2\", \"3\"]]\x7d"⟩

/-- Scenario 10, `test_json_array_empty` (`src/test_mtojson.c:262`): count 0
over a non-null (uninitialised) reference. -/
def sArrayEmpty : Scenario :=
  ⟨[("array", .vArray (some [.vString "x"]) 0)], "\x7b\"array\": []\x7d"⟩

/-- Scenario 11, `test_json_array_empty_one` (`src/test_mtojson.c:285`): the
first inner descriptor has a null reference and count 0. -/
def sArrayEmptyOne : Scenario :=
  ⟨[("array", .vArray (some [.vArray none 0, innerArr123]) 2)],
   "\x7b\"array\": [[], [\"1\", \"2\", \"3\"]]\x7d"⟩

/-- Member sequence `keys` of scenario 12 (`src/test_mtojson.c:355`), also
the first element of scenario 13's object array. -/
def keysObj : JObject :=
  [("key_id", .vInt 1), ("count", .vInt 3),
   ("values", .vArray
     (some [.vString "DEADBEEF", .vString "1337BEEF", .vString "0000BEEF"]) 3)]

/-- Scenario 12, `test_json_object` (`src/test_mtojson.c:331`). -/
def sObject : Scenario :=
  ⟨[("keys", .vObject keysObj), ("number_of_keys", .vInt 1)],
   "\x7b\"keys\": \x7b\"key_id\": 1, \"count\": 3, \"values\": [\"DEADBEEF\", \"1337BEEF\", \"0000BEEF\"]\x7d, \"number_of_keys\": 1\x7d"⟩

/-- Third element of scenario 13's object array (`src/test_mtojson.c:413`). -/
def keysObj2 : JObject :=
  [("key_id", .vInt 2), ("count", .vInt 1),
   ("values", .vArray (some [.vString "DEADFEED"]) 1)]

/-- Scenario 13, `test_json_array_object` (`src/test_mtojson.c:373`): an
array of member sequences whose middle element is empty. -/
def sArrayObject : Scenario :=
  ⟨[("keys", .vArray (some [.vObject keysObj, .vObject [], .vObject keysObj2]) 3),
    ("number_of_keys", .vInt 2)],
   "\x7b\"keys\": [\x7b\"key_id\": 1, \"count\": 3, \"values\": [\"DEADBEEF\", \"1337BEEF\", \"0000BEEF\"]\x7d, \x7b\x7d, \x7b\"key_id\": 2, \"count\": 1, \"values\": [\"DEADFEED\"]\x7d], \"number_of_keys\": 2\x7d"⟩

/-- Scenario 14, `test_json_object_empty` (`src/test_mtojson.c:314`): the
sentinel-only sequence. -/
def sObjectEmpty : Scenario := ⟨[], "\x7b\x7d"⟩

/-- Scenario 15, `test_json_object_object` (`src/test_mtojson.c:435`). -/
def sObjectObject : Scenario :=
  ⟨[("outer", .vObject [("middle", .vObject [("inner", .vBool true)])])],
   "\x7b\"outer\": \x7b\"middle\": \x7b\"inner\": true\x7d\x7d\x7d"⟩

/-- Scenario 16, `test_json_object_nested_empty` (`src/test_mtojson.c:473`). -/
def sObjectNestedEmpty : Scenario :=
  ⟨[("outer", .vObject [("middle", .vObject [("inner", .vObject [])])])],
   "\x7b\"outer\": \x7b\"middle\": \x7b\"inner\": \x7b\x7d\x7d\x7d\x7d"⟩

/-- Scenario 17, `test_json_uinteger` (`src/test_mtojson.c:149`). -/
def sUinteger : Scenario := ⟨[("key", .vUInt 65535)], "\x7b\"key\": 65535\x7d"⟩

/-- The batch-mode scenario list, in `exec_test` order 1–17
(`src/test_mtojson.c:531`). -/
def scenarios : List Scenario :=
  [sInteger, sIntegerTwo, sString, sBoolean, sValuetype, sArrayInteger,
   sArrayBoolean, sArrayString, sArrayArray, sArrayEmpty, sArrayEmptyOne,
   sObject, sArrayObject, sObjectEmpty, sObjectObject, sObjectNestedEmpty,
   sUinteger]

/-- Rendering of one member as `"key": value`, used to state the
order-preservation property of member sequences. -/
def memberText (p : String × JValue) : List Char :=
  '"' :: p.1.data ++ "\": ".data ++ renderValue p.2

/-- Pieces joined by a separator, used to state the order-preservation
property of member sequences. -/
def joinSep (sep : List Char) : List (List Char) → List Char
  | [] => []
  | x :: rest => x ++ (if rest.isEmpty then [] else sep) ++ joinSep sep rest

/-! Properties of the bounded emitter. -/

/-- Emission never changes the physical length of the buffer. -/
theorem writeBounded_length (cap : Nat) (cs : List Char) :
    ∀ (buf : List Char) (pos : Nat),
      (writeBounded cap buf pos cs).2.length = buf.length := by
  induction cs with
  | nil => intro buf pos; rfl
  | cons c cs ih =>
    intro buf pos
    by_cases h : pos < cap
    · simp [writeBounded, h, ih]
    · simp [writeBounded, h]

/-- Every byte write of the emitter is guarded by `pos < cap`, so offsets at
or beyond the declared capacity are left untouched, on success and on
failure alike. -/
theorem writeBounded_getElem_ge (cap : Nat) (cs : List Char) :
    ∀ (buf : List Char) (pos i : Nat), cap ≤ i →
      ((writeBounded cap buf pos cs).2)[i]? = buf[i]? := by
  induction cs with
  | nil => intro buf pos i _; rfl
  | cons c cs ih =>
    intro buf pos i hi
    by_cases h : pos < cap
    · have hred : writeBounded cap buf pos (c :: cs) =
          writeBounded cap (buf.set pos c) (pos + 1) cs := by
        simp [writeBounded, h]
      rw [hred, ih _ _ _ hi, List.getElem?_set_ne (by omega)]
    · simp [writeBounded, h]

/-- When the document fits, emission completes and reports the next free
offset. -/
theorem writeBounded_fst_of_le (cap : Nat) (cs : List Char) :
    ∀ (buf : List Char) (pos : Nat), pos + cs.length ≤ cap →
      (writeBounded cap buf pos cs).1 = some (pos + cs.length) := by
  induction cs with
  | nil => intro buf pos _; simp [writeBounded]
  | cons c cs ih =>
    intro buf pos h
    have hlt : pos < cap := by simp at h; omega
    have := ih (buf.set pos c) (pos + 1) (by simp at h ⊢; omega)
    simp only [writeBounded, if_pos hlt, this, List.length_cons]
    congr 1
    omega

/-- When the document does not fit, emission aborts with `none`. -/
theorem writeBounded_fst_of_lt (cap : Nat) (cs : List Char) :
    ∀ (buf : List Char) (pos : Nat), pos ≤ cap → cap < pos + cs.length →
      (writeBounded cap buf pos cs).1 = none := by
  induction cs with
  | nil => intro buf pos h1 h2; exfalso; simp at h2; omega
  | cons c cs ih =>
    intro buf pos h1 h2
    by_cases h : pos < cap
    · have := ih (buf.set pos c) (pos + 1) (by omega) (by simp at h2 ⊢; omega)
      simp [writeBounded, h, this]
    · simp [writeBounded, h]

/-- On success the buffer holds the emitted bytes at offsets
`pos, …, pos + cs.length - 1` and is unchanged elsewhere. -/
theorem writeBounded_getElem_of_le (cap : Nat) (cs : List Char) :
    ∀ (buf : List Char) (pos : Nat), pos + cs.length ≤ cap → cap ≤ buf.length →
      ∀ i : Nat, ((writeBounded cap buf pos cs).2)[i]? =
        if pos ≤ i ∧ i < pos + cs.length then cs[i - pos]? else buf[i]? := by
  induction cs with
  | nil =>
    intro buf pos _ _ i
    simp only [writeBounded, List.length_nil, Nat.add_zero, List.getElem?_nil]
    rw [if_neg (by omega)]
  | cons c cs ih =>
    intro buf pos h hb i
    have hlt : pos < cap := by simp at h; omega
    have hred : writeBounded cap buf pos (c :: cs) =
        writeBounded cap (buf.set pos c) (pos + 1) cs := by
      simp [writeBounded, hlt]
    rw [hred, ih (buf.set pos c) (pos + 1) (by simp at h ⊢; omega)
          (by simpa using hb)]
    by_cases hi : i = pos
    · subst hi
      rw [if_neg (by omega), if_pos (by simp only [List.length_cons]; omega)]
      rw [List.getElem?_set_self (by omega)]
      simp
    · by_cases hrange : pos + 1 ≤ i ∧ i < pos + 1 + cs.length
      · rw [if_pos hrange, if_pos (by simp only [List.length_cons]; omega)]
        have hsub : i - pos = (i - (pos + 1)) + 1 := by omega
        rw [hsub]
        simp
      · rw [if_neg hrange, if_neg (by simp only [List.length_cons]; omega)]
        exact List.getElem?_set_ne (by omega)

/-! Properties of the rendered document. -/

/-- An object rendering always consists of its two braces around the member
text. -/
theorem renderObject_eq (kvs : JObject) :
    renderObject kvs = '\x7b' :: renderMembers kvs ++ ['\x7d'] := by
  simp [renderObject]

/-- An object rendering is at least the two braces long. -/
theorem two_le_renderObject_length (kvs : JObject) :
    2 ≤ (renderObject kvs).length := by
  rw [renderObject_eq]
  simp

/-- The complete document counts the object text plus its terminator. -/
theorem jsonDoc_length (kv : JObject) :
    (jsonDoc kv).length = (renderObject kv).length + 1 := by
  simp [jsonDoc]

/-- The complete document of any member sequence is at least three bytes:
the two braces and the terminator. -/
theorem three_le_jsonDoc_length (kv : JObject) : 3 ≤ (jsonDoc kv).length := by
  have := two_le_renderObject_length kv
  rw [jsonDoc_length]
  omega

/-! Properties of `generate_json`. -/

/-- The final buffer of `generate_json` is the emitter's final buffer. -/
theorem generate_json_snd_eq (buf : List Char) (kv : JObject) (len : Nat) :
    (generate_json buf kv len).2 = (writeBounded len buf 0 (jsonDoc kv)).2 := rfl

/-- The return value of `generate_json` is computed from the emitter's
completion offset. -/
theorem generate_json_fst_eq (buf : List Char) (kv : JObject) (len : Nat) :
    (generate_json buf kv len).1 =
      match (writeBounded len buf 0 (jsonDoc kv)).1 with
      | some pos => pos - 1
      | none => 0 := rfl

/-- `generate_json` never changes the physical length of the buffer. -/
theorem generate_json_length (buf : List Char) (kv : JObject) (len : Nat) :
    (generate_json buf kv len).2.length = buf.length := by
  rw [generate_json_snd_eq]
  exact writeBounded_length ..

/-- When the document (terminator included) fits the declared capacity,
`generate_json` returns the document length minus the terminator. -/
theorem generate_json_fst_of_le (buf : List Char) (kv : JObject) (len : Nat)
    (h : (jsonDoc kv).length ≤ len) :
    (generate_json buf kv len).1 = (jsonDoc kv).length - 1 := by
  rw [generate_json_fst_eq,
    writeBounded_fst_of_le len (jsonDoc kv) buf 0 (by omega)]
  simp

/-- When the declared capacity is short of the document (terminator
included), `generate_json` returns the failure sentinel `0`. -/
theorem generate_json_fst_of_lt (buf : List Char) (kv : JObject) (len : Nat)
    (h : len < (jsonDoc kv).length) :
    (generate_json buf kv len).1 = 0 := by
  rw [generate_json_fst_eq,
    writeBounded_fst_of_lt len (jsonDoc kv) buf 0 (by omega) (by omega)]

/-- The call succeeds — returns a nonzero byte count — exactly when the
document including its terminator fits the declared capacity. -/
theorem generate_json_fst_ne_zero_iff (buf : List Char) (kv : JObject) (len : Nat) :
    (generate_json buf kv len).1 ≠ 0 ↔ (jsonDoc kv).length ≤ len := by
  have h3 := three_le_jsonDoc_length kv
  rcases le_or_lt (jsonDoc kv).length len with h | h
  · rw [generate_json_fst_of_le buf kv len h]
    constructor
    · intro _; exact h
    · intro _; omega
  · rw [generate_json_fst_of_lt buf kv len h]
    constructor
    · intro hne; exact absurd rfl hne
    · intro hle; omega

/-- On success the buffer holds the document at offsets `0, …,
length - 1` and is unchanged beyond it. -/
theorem generate_json_getElem_of_le (buf : List Char) (kv : JObject) (len : Nat)
    (h : (jsonDoc kv).length ≤ len) (hb : len ≤ buf.length) (i : Nat) :
    ((generate_json buf kv len).2)[i]? =
      if i < (jsonDoc kv).length then (jsonDoc kv)[i]? else buf[i]? := by
  rw [generate_json_snd_eq,
    writeBounded_getElem_of_le len (jsonDoc kv) buf 0 (by omega) (by omega) i]
  simp

/-- On success the buffer is the document followed by the untouched tail of
its previous contents. -/
theorem generate_json_snd_of_le (buf : List Char) (kv : JObject) (len : Nat)
    (h : (jsonDoc kv).length ≤ len) (hb : len ≤ buf.length) :
    (generate_json buf kv len).2 = jsonDoc kv ++ buf.drop (jsonDoc kv).length := by
  apply List.ext_getElem?
  intro i
  rw [generate_json_getElem_of_le buf kv len h hb i, List.getElem?_append]
  by_cases hi : i < (jsonDoc kv).length
  · rw [if_pos hi, if_pos hi]
  · rw [if_neg hi, if_neg hi, List.getElem?_drop]
    congr 1
    omega

/-! Properties of the harness model. -/

/-- Reading a buffer as a C string stops exactly at a terminator appended to
terminator-free text. -/
theorem cString_append_nul (l : List Char) (h : nulChar ∉ l) :
    cString (l ++ [nulChar]) = l := by
  unfold cString
  rw [List.takeWhile_append]
  have h1 : l.takeWhile (fun c => decide (c ≠ nulChar)) = l := by
    rw [List.takeWhile_eq_self_iff]
    intro x hx
    simp only [decide_eq_true_eq]
    intro hEq
    exact h (hEq ▸ hx)
  rw [h1]
  simp

/-- Terminator-free text reads back unchanged as a C string. -/
theorem cString_of_not_mem (l : List Char) (h : nulChar ∉ l) :
    cString l = l := by
  unfold cString
  rw [List.takeWhile_eq_self_iff]
  intro x hx
  simp only [decide_eq_true_eq]
  intro hEq
  exact h (hEq ▸ hx)

/-- When the modelled serializer renders a scenario's member sequence to
exactly its expected literal, the scenario passes: the capacity-minus-one
call returns the sentinel, the exact-capacity call succeeds, and the buffer
compares equal to the literal. -/
theorem runTest_pass (s : Scenario)
    (hdoc : renderObject s.jkv = s.expected.data)
    (hnul : nulChar ∉ s.expected.data) :
    runTest s = (none, false) := by
  have hlen : (jsonDoc s.jkv).length = s.expected.length + 1 := by
    simp [jsonDoc, hdoc]
  have h3 := three_le_jsonDoc_length s.jkv
  unfold runTest
  have hfst1 : (generate_json (List.replicate (s.expected.length + 1) nulChar)
      s.jkv (s.expected.length)).1 = 0 := by
    apply generate_json_fst_of_lt
    omega
  have hlen1 : (generate_json (List.replicate (s.expected.length + 1) nulChar)
      s.jkv (s.expected.length)).2.length = s.expected.length + 1 := by
    rw [generate_json_length, List.length_replicate]
  have hfst2 : (generate_json (generate_json
      (List.replicate (s.expected.length + 1) nulChar) s.jkv
      (s.expected.length)).2 s.jkv (s.expected.length + 1)).1 ≠ 0 := by
    rw [generate_json_fst_ne_zero_iff]
    omega
  have hsnd2 : (generate_json (generate_json
      (List.replicate (s.expected.length + 1) nulChar) s.jkv
      (s.expected.length)).2 s.jkv (s.expected.length + 1)).2 =
      s.expected.data ++ [nulChar] := by
    rw [generate_json_snd_of_le _ _ _ (by omega) (by omega)]
    have hdrop : ((generate_json (List.replicate (s.expected.length + 1) nulChar)
        s.jkv (s.expected.length)).2).drop (jsonDoc s.jkv).length = [] := by
      apply List.drop_eq_nil_of_le
      omega
    rw [hdrop, List.append_nil, jsonDoc, hdoc]
  have hcheck : check_result s.expected (s.expected.data ++ [nulChar]) = false := by
    simp only [check_result, cString_append_nul _ hnul, cString_of_not_mem _ hnul]
    simp
  simp [hfst1, hfst2, hsnd2, hcheck]

/-! Each scenario of `src/test_mtojson.c` passes against the modelled
serializer: the capacity-minus-one call fails, the exact-capacity call
succeeds, and the generated text equals the expected literal byte for
byte. -/

/-- Scenario 1 renders to its expected literal. -/
theorem doc_sInteger : renderObject sInteger.jkv = sInteger.expected.data := by
  simp only [sInteger, renderObject, renderMembers, renderValue, renderElems]
  decide

/-- Scenario 1 passes. -/
theorem runTest_sInteger : runTest sInteger = (none, false) :=
  runTest_pass _ doc_sInteger (by decide)

/-- Scenario 2 renders to its expected literal. -/
theorem doc_sIntegerTwo :
    renderObject sIntegerTwo.jkv = sIntegerTwo.expected.data := by
  simp only [sIntegerTwo, renderObject, renderMembers, renderValue, renderElems]
  decide

/-- Scenario 2 passes. -/
theorem runTest_sIntegerTwo : runTest sIntegerTwo = (none, false) :=
  runTest_pass _ doc_sIntegerTwo (by decide)

/-- Scenario 3 renders to its expected literal. -/
theorem doc_sString : renderObject sString.jkv = sString.expected.data := by
  simp only [sString, renderObject, renderMembers, renderValue, renderElems]
  decide

/-- Scenario 3 passes. -/
theorem runTest_sString : runTest sString = (none, false) :=
  runTest_pass _ doc_sString (by decide)

/-- Scenario 4 renders to its expected literal. -/
theorem doc_sBoolean : renderObject sBoolean.jkv = sBoolean.expected.data := by
  simp only [sBoolean, renderObject, renderMembers, renderValue, renderElems]
  decide

/-- Scenario 4 passes. -/
theorem runTest_sBoolean : runTest sBoolean = (none, false) :=
  runTest_pass _ doc_sBoolean (by decide)

/-- Scenario 5 renders to its expected literal. -/
theorem doc_sValuetype : renderObject sValuetype.jkv = sValuetype.expected.data := by
  simp only [sValuetype, renderObject, renderMembers, renderValue, renderElems]
  decide

/-- Scenario 5 passes. -/
theorem runTest_sValuetype : runTest sValuetype = (none, false) :=
  runTest_pass _ doc_sValuetype (by decide)

/-- Scenario 6 renders to its expected literal. -/
theorem doc_sArrayInteger :
    renderObject sArrayInteger.jkv = sArrayInteger.expected.data := by
  simp only [sArrayInteger, renderObject, renderMembers, renderValue, renderElems]
  decide

/-- Scenario 6 passes. -/
theorem runTest_sArrayInteger : runTest sArrayInteger = (none, false) :=
  runTest_pass _ doc_sArrayInteger (by decide)

/-- Scenario 7 renders to its expected literal. -/
theorem doc_sArrayBoolean :
    renderObject sArrayBoolean.jkv = sArrayBoolean.expected.data := by
  simp only [sArrayBoolean, renderObject, renderMembers, renderValue, renderElems]
  decide

/-- Scenario 7 passes. -/
theorem runTest_sArrayBoolean : runTest sArrayBoolean = (none, false) :=
  runTest_pass _ doc_sArrayBoolean (by decide)

/-- Scenario 8 renders to its expected literal. -/
theorem doc_sArrayString :
    renderObject sArrayString.jkv = sArrayString.expected.data := by
  simp only [sArrayString, renderObject, renderMembers, renderValue, renderElems]
  decide

/-- Scenario 8 passes. -/
theorem runTest_sArrayString : runTest sArrayString = (none, false) :=
  runTest_pass _ doc_sArrayString (by decide)

/-- Scenario 9 renders to its expected literal. -/
theorem doc_sArrayArray :
    renderObject sArrayArray.jkv = sArrayArray.expected.data := by
  simp only [sArrayArray, innerArr123, renderObject, renderMembers,
    renderValue, renderElems]
  decide

/-- Scenario 9 passes. -/
theorem runTest_sArrayArray : runTest sArrayArray = (none, false) :=
  runTest_pass _ doc_sArrayArray (by decide)

/-- Scenario 10 renders to its expected literal. -/
theorem doc_sArrayEmpty :
    renderObject sArrayEmpty.jkv = sArrayEmpty.expected.data := by
  simp only [sArrayEmpty, renderObject, renderMembers, renderValue, renderElems]
  decide

/-- Scenario 10 passes. -/
theorem runTest_sArrayEmpty : runTest sArrayEmpty = (none, false) :=
  runTest_pass _ doc_sArrayEmpty (by decide)

/-- Scenario 11 renders to its expected literal. -/
theorem doc_sArrayEmptyOne :
    renderObject sArrayEmptyOne.jkv = sArrayEmptyOne.expected.data := by
  simp only [sArrayEmptyOne, innerArr123, renderObject, renderMembers,
    renderValue, renderElems]
  decide

/-- Scenario 11 passes. -/
theorem runTest_sArrayEmptyOne : runTest sArrayEmptyOne = (none, false) :=
  runTest_pass _ doc_sArrayEmptyOne (by decide)

/-- Scenario 12 renders to its expected literal. -/
theorem doc_sObject : renderObject sObject.jkv = sObject.expected.data := by
  simp only [sObject, keysObj, renderObject, renderMembers, renderValue,
    renderElems]
  decide

/-- Scenario 12 passes. -/
theorem runTest_sObject : runTest sObject = (none, false) :=
  runTest_pass _ doc_sObject (by decide)

/-- Scenario 13 renders to its expected literal. -/
theorem doc_sArrayObject :
    renderObject sArrayObject.jkv = sArrayObject.expected.data := by
  simp only [sArrayObject, keysObj, keysObj2, renderObject, renderMembers,
    renderValue, renderElems]
  decide

/-- Scenario 13 passes. -/
theorem runTest_sArrayObject : runTest sArrayObject = (none, false) :=
  runTest_pass _ doc_sArrayObject (by decide)

/-- Scenario 14 renders to its expected literal. -/
theorem doc_sObjectEmpty :
    renderObject sObjectEmpty.jkv = sObjectEmpty.expected.data := by
  simp only [sObjectEmpty, renderObject, renderMembers]
  decide

/-- Scenario 14 passes. -/
theorem runTest_sObjectEmpty : runTest sObjectEmpty = (none, false) :=
  runTest_pass _ doc_sObjectEmpty (by decide)

/-- Scenario 15 renders to its expected literal. -/
theorem doc_sObjectObject :
    renderObject sObjectObject.jkv = sObjectObject.expected.data := by
  simp only [sObjectObject, renderObject, renderMembers, renderValue, renderElems]
  decide

/-- Scenario 15 passes. -/
theorem runTest_sObjectObject : runTest sObjectObject = (none, false) :=
  runTest_pass _ doc_sObjectObject (by decide)

/-- Scenario 16 renders to its expected literal. -/
theorem doc_sObjectNestedEmpty :
    renderObject sObjectNestedEmpty.jkv = sObjectNestedEmpty.expected.data := by
  simp only [sObjectNestedEmpty, renderObject, renderMembers, renderValue,
    renderElems]
  decide

/-- Scenario 16 passes. -/
theorem runTest_sObjectNestedEmpty : runTest sObjectNestedEmpty = (none, false) :=
  runTest_pass _ doc_sObjectNestedEmpty (by decide)

/-- Scenario 17 renders to its expected literal. -/
theorem doc_sUinteger : renderObject sUinteger.jkv = sUinteger.expected.data := by
  simp only [sUinteger, renderObject, renderMembers, renderValue, renderElems]
  decide

/-- Scenario 17 passes. -/
theorem runTest_sUinteger : runTest sUinteger = (none, false) :=
  runTest_pass _ doc_sUinteger (by decide)

/-- A passing scenario contributes no failure and lets the batch run
continue. -/
theorem runTests_cons_pass (s : Scenario) (rest : List Scenario) (acc : Nat)
    (h : runTest s = (none, false)) :
    runTests (s :: rest) acc = runTests rest acc := by
  simp [runTests, h]

/-- Batch mode over the modelled serializer: every scenario runs its two
calls without a safety-violation exit and compares equal to its literal, so
the harness finishes with zero failed tests. -/
theorem runTests_scenarios : runTests scenarios 0 = .finished 0 := by
  rw [scenarios,
    runTests_cons_pass _ _ _ runTest_sInteger,
    runTests_cons_pass _ _ _ runTest_sIntegerTwo,
    runTests_cons_pass _ _ _ runTest_sString,
    runTests_cons_pass _ _ _ runTest_sBoolean,
    runTests_cons_pass _ _ _ runTest_sValuetype,
    runTests_cons_pass _ _ _ runTest_sArrayInteger,
    runTests_cons_pass _ _ _ runTest_sArrayBoolean,
    runTests_cons_pass _ _ _ runTest_sArrayString,
    runTests_cons_pass _ _ _ runTest_sArrayArray,
    runTests_cons_pass _ _ _ runTest_sArrayEmpty,
    runTests_cons_pass _ _ _ runTest_sArrayEmptyOne,
    runTests_cons_pass _ _ _ runTest_sObject,
    runTests_cons_pass _ _ _ runTest_sArrayObject,
    runTests_cons_pass _ _ _ runTest_sObjectEmpty,
    runTests_cons_pass _ _ _ runTest_sObjectObject,
    runTests_cons_pass _ _ _ runTest_sObjectNestedEmpty,
    runTests_cons_pass _ _ _ runTest_sUinteger]
  rfl

/-! Further helper lemmas for the claims. -/

/-- The document of the sentinel-only member sequence is the two braces and
the terminator. -/
theorem jsonDoc_nil : jsonDoc [] = ['\x7b', '\x7d', nulChar] := by
  simp only [jsonDoc, renderObject, renderMembers]
  decide

/-- Member text renders as the member renderings joined in caller-given
order by `", "`, one piece per entry, none dropped and none reordered. -/
theorem renderMembers_joinSep (kvs : JObject) :
    renderMembers kvs = joinSep ", ".data (kvs.map memberText) := by
  induction kvs with
  | nil => simp [renderMembers, joinSep]
  | cons p rest ih =>
    rcases p with ⟨k, v⟩
    rw [renderMembers, List.map_cons, joinSep, ih, memberText]
    cases rest <;> simp

/-- Batch mode without a safety-violation exit finishes with the failed-test
count added to the accumulator. -/
theorem runTests_finished_of_no_abort (ss : List Scenario) :
    ∀ acc : Nat, (∀ s ∈ ss, (runTest s).1 = none) →
      runTests ss acc =
        .finished (acc + (ss.filter (fun s => (runTest s).2)).length) := by
  induction ss with
  | nil => intro acc _; simp [runTests]
  | cons s rest ih =>
    intro acc hall
    have hs : (runTest s).1 = none := hall s (by simp)
    have hrest : ∀ t ∈ rest, (runTest t).1 = none :=
      fun t ht => hall t (by simp [ht])
    rcases hr : runTest s with ⟨o, f⟩
    rw [hr] at hs
    simp only at hs
    subst hs
    rw [runTests, hr]
    show runTests rest (acc + if f = true then 1 else 0) =
      HarnessResult.finished
        (acc + (List.filter (fun s => (runTest s).2) (s :: rest)).length)
    rw [ih _ hrest, List.filter_cons]
    have hpf : (runTest s).2 = f := by rw [hr]
    rw [hpf]
    cases f <;> (simp; try omega)

/-- A `run_test` exit code is always one of the two reserved sentinel
statuses. -/
theorem runTest_abort_code (s : Scenario) (code : Nat)
    (h : (runTest s).1 = some code) : code = 125 ∨ code = 124 := by
  simp only [runTest] at h
  split_ifs at h <;> simp_all

/-- A safety-violation exit aborts the batch run immediately: the remaining
scenarios do not affect the outcome. -/
theorem runTests_cons_abort (s : Scenario) (rest : List Scenario) (acc code : Nat)
    (h : (runTest s).1 = some code) :
    runTests (s :: rest) acc = .aborted code := by
  rcases hr : runTest s with ⟨o, f⟩
  rw [hr] at h
  simp only at h
  subst h
  rw [runTests, hr]

/-- An undetected overflow — the capacity-minus-one call returning nonzero —
makes `run_test` exit with status 125. -/
theorem runTest_abort_125 (s : Scenario)
    (h : (generate_json (List.replicate (s.expected.length + 1) nulChar)
        s.jkv s.expected.length).1 ≠ 0) :
    runTest s = (some 125, true) := by
  simp only [runTest, Nat.add_sub_cancel]
  rw [if_pos h]

/-- A spuriously detected overflow — the exact-capacity call returning the
sentinel after the capacity-minus-one call correctly failed — makes
`run_test` exit with status 124. -/
theorem runTest_abort_124 (s : Scenario)
    (h1 : (generate_json (List.replicate (s.expected.length + 1) nulChar)
        s.jkv s.expected.length).1 = 0)
    (h2 : (generate_json (generate_json (List.replicate (s.expected.length + 1)
        nulChar) s.jkv s.expected.length).2 s.jkv (s.expected.length + 1)).1 = 0) :
    runTest s = (some 124, true) := by
  simp only [runTest, Nat.add_sub_cancel]
  rw [if_neg (by simp [h1]), if_pos h2]

/-! Claim theorems. -/

/-- C1: for every member-entry sequence and every declared capacity, the
serializer never writes to a buffer offset at or beyond the capacity,
whether the call succeeds or returns the failure sentinel — the final buffer
agrees with the initial buffer at every offset `i ≥ len` (every single byte
write of the emitter is guarded by `pos < cap`). -/
theorem generate_json_no_overrun (kv : JObject) (len : Nat) (buf : List Char)
    (i : Nat) (h : len ≤ i) :
    ((generate_json buf kv len).2)[i]? = buf[i]? := by
  rw [generate_json_snd_eq]
  exact writeBounded_getElem_ge len (jsonDoc kv) buf 0 i h

/-- Witness for `generate_json_no_overrun` at a concrete input. -/
theorem generate_json_no_overrun_witness :
    3 ≤ 3 ∧ ((generate_json (List.replicate 4 'a') [] 3).2)[3]? =
      (List.replicate 4 'a')[3]? :=
  ⟨by decide, generate_json_no_overrun [] 3 (List.replicate 4 'a') 3 (by decide)⟩

/-- C2: exact-fit success — for any member sequence with serialized document
D (terminator included) and a buffer whose physical length equals D's
length, calling with declared capacity exactly D's length succeeds, returns
the document length minus the terminator, and leaves the buffer equal to D
byte for byte. -/
theorem generate_json_exact_fit (kv : JObject) (buf : List Char)
    (h : buf.length = (jsonDoc kv).length) :
    generate_json buf kv (jsonDoc kv).length =
      ((jsonDoc kv).length - 1, jsonDoc kv) := by
  have hfst := generate_json_fst_of_le buf kv (jsonDoc kv).length (le_refl _)
  have hsnd := generate_json_snd_of_le buf kv (jsonDoc kv).length (le_refl _)
    (by omega)
  rw [List.drop_eq_nil_of_le (by omega), List.append_nil] at hsnd
  exact Prod.ext_iff.mpr ⟨hfst, hsnd⟩

/-- Witness for `generate_json_exact_fit` at a concrete input. -/
theorem generate_json_exact_fit_witness :
    (List.replicate 3 'a').length = (jsonDoc []).length ∧
    generate_json (List.replicate 3 'a') [] (jsonDoc []).length =
      ((jsonDoc []).length - 1, jsonDoc []) :=
  ⟨by rw [jsonDoc_nil]; decide,
   generate_json_exact_fit [] (List.replicate 3 'a') (by rw [jsonDoc_nil]; decide)⟩

/-- C3: off-by-one failure — with the declared capacity one byte short of
the document (terminator included), the call returns the failure sentinel 0
for every member sequence and every buffer; a shortfall anywhere in the
nested structure surfaces only as this single sentinel return of the
top-level call. -/
theorem generate_json_off_by_one (kv : JObject) (buf : List Char) :
    (generate_json buf kv ((jsonDoc kv).length - 1)).1 = 0 := by
  have h3 := three_le_jsonDoc_length kv
  exact generate_json_fst_of_lt buf kv _ (by omega)

/-- C4: determinism — the return value depends only on the entry sequence
and the declared capacity (never on the buffer's prior contents), and on
success the written bytes — document text and terminator — are identical
across calls regardless of the initial buffer contents; the model has no
state beyond its arguments and the returned buffer, so there is no
observable effect outside the output buffer. -/
theorem generate_json_deterministic (kv : JObject) (len : Nat)
    (buf₁ buf₂ : List Char) :
    (generate_json buf₁ kv len).1 = (generate_json buf₂ kv len).1 ∧
    ((generate_json buf₁ kv len).1 ≠ 0 → len ≤ buf₁.length → len ≤ buf₂.length →
      ∀ i, i ≤ (generate_json buf₁ kv len).1 →
        ((generate_json buf₁ kv len).2)[i]? = ((generate_json buf₂ kv len).2)[i]?) := by
  constructor
  · rcases le_or_lt (jsonDoc kv).length len with h | h
    · rw [generate_json_fst_of_le buf₁ kv len h,
        generate_json_fst_of_le buf₂ kv len h]
    · rw [generate_json_fst_of_lt buf₁ kv len h,
        generate_json_fst_of_lt buf₂ kv len h]
  · intro hne h1 h2 i hi
    have hfit := (generate_json_fst_ne_zero_iff buf₁ kv len).mp hne
    have h3 := three_le_jsonDoc_length kv
    rw [generate_json_fst_of_le buf₁ kv len hfit] at hi
    rw [generate_json_getElem_of_le buf₁ kv len hfit h1 i,
      generate_json_getElem_of_le buf₂ kv len hfit h2 i,
      if_pos (by omega), if_pos (by omega)]

/-- Witness for `generate_json_deterministic` at a concrete input: two
buffers with different prior contents receive the same first byte. -/
theorem generate_json_deterministic_witness :
    (generate_json (List.replicate 3 'a') [] 3).1 ≠ 0 ∧
    3 ≤ (List.replicate 3 'a').length ∧ 3 ≤ (List.replicate 3 'b').length ∧
    ((generate_json (List.replicate 3 'a') [] 3).2)[0]? =
      ((generate_json (List.replicate 3 'b') [] 3).2)[0]? := by
  have hne : (generate_json (List.replicate 3 'a') [] 3).1 ≠ 0 :=
    (generate_json_fst_ne_zero_iff _ _ _).mpr (by rw [jsonDoc_nil]; decide)
  refine ⟨hne, by decide, by decide, ?_⟩
  exact (generate_json_deterministic [] 3 (List.replicate 3 'a')
    (List.replicate 3 'b')).2 hne (by decide) (by decide) 0 (Nat.zero_le _)

/-- C5: empty containers — the sentinel-only member sequence serializes to
exactly the two braces, and an array descriptor with count 0 serializes to
exactly `[]` for every value reference, a null reference included. -/
theorem serialize_empty_containers :
    renderObject [] = "\x7b\x7d".data ∧
    ∀ v : Option (List JValue), renderValue (.vArray v 0) = "[]".data := by
  constructor
  · simp only [renderObject, renderMembers]
    decide
  · intro v
    rcases v with _ | l
    · simp [renderValue]
    · rcases l with _ | ⟨x, rest⟩ <;> simp [renderValue, renderElems]

/-- C6: order and duplicates preserved — every member sequence renders as
its members' texts joined by `", "` in caller-given order, one piece per
entry, nothing sorted and nothing deduplicated; in particular two entries
sharing the key `key` with values -32767 and 32767 serialize to the
document carrying both, in order. -/
theorem serialize_order_and_duplicates :
    (∀ kvs : JObject, renderMembers kvs = joinSep ", ".data (kvs.map memberText)) ∧
    renderObject [("key", .vInt (-32767)), ("key", .vInt 32767)] =
      "\x7b\"key\": -32767, \"key\": 32767\x7d".data := by
  refine ⟨renderMembers_joinSep, ?_⟩
  simpa [sIntegerTwo] using doc_sIntegerTwo

/-- C7: raw values verbatim — a `t_to_value` entry's text is emitted
unquoted, unescaped and unvalidated, exactly as given; in particular the
malformed fragment of scenario 5 appears verbatim in the document. -/
theorem serialize_raw_value_verbatim :
    (∀ s : String, renderValue (.vValue s) = s.data) ∧
    renderObject [("key", .vValue "This is not valid \x7b\x7dJSON!")] =
      "\x7b\"key\": This is not valid \x7b\x7dJSON!\x7d".data := by
  refine ⟨fun s => by simp [renderValue], ?_⟩
  simpa [sValuetype] using doc_sValuetype

/-- C8: on success the buffer holds the complete null-terminated document —
the object text followed by the terminator — and the return value counts the
bytes excluding the terminator, hence is at least 2, the minimal document
being the two braces. -/
theorem generate_json_success_complete (kv : JObject) (len : Nat)
    (buf : List Char) (hb : len ≤ buf.length)
    (h : (generate_json buf kv len).1 ≠ 0) :
    (generate_json buf kv len).1 = (jsonDoc kv).length - 1 ∧
    2 ≤ (generate_json buf kv len).1 ∧
    ((generate_json buf kv len).2).take ((generate_json buf kv len).1 + 1) =
      renderObject kv ++ [nulChar] := by
  have hfit := (generate_json_fst_ne_zero_iff buf kv len).mp h
  have h3 := three_le_jsonDoc_length kv
  have hfst := generate_json_fst_of_le buf kv len hfit
  refine ⟨hfst, by omega, ?_⟩
  rw [hfst, generate_json_snd_of_le buf kv len hfit hb]
  have hlen : (jsonDoc kv).length - 1 + 1 = (jsonDoc kv).length := by omega
  rw [hlen, List.take_left]
  rfl

/-- Witness for `generate_json_success_complete` at a concrete input. -/
theorem generate_json_success_complete_witness :
    3 ≤ (List.replicate 3 'a').length ∧
    (generate_json (List.replicate 3 'a') [] 3).1 ≠ 0 ∧
    2 ≤ (generate_json (List.replicate 3 'a') [] 3).1 := by
  have hne : (generate_json (List.replicate 3 'a') [] 3).1 ≠ 0 :=
    (generate_json_fst_ne_zero_iff _ _ _).mpr (by rw [jsonDoc_nil]; decide)
  exact ⟨by decide, hne,
    (generate_json_success_complete [] 3 (List.replicate 3 'a')
      (by decide) hne).2.1⟩

/-- C9: the harness exercises the serializer twice per scenario — the
capacity-minus-one call must return the sentinel and the exact-capacity
call must succeed matching the expected literal byte for byte, as encoded
in `runTest` — and in batch mode the exit status equals the count of failed
scenarios, a safety violation instead yielding one of the reserved sentinel
statuses 125/124; against the modelled serializer all seventeen scenarios
pass, so the batch run finishes with status 0. -/
theorem harness_exit_status :
    (∀ (ss : List Scenario) (acc : Nat),
      (∀ s ∈ ss, (runTest s).1 = none) →
      runTests ss acc =
        .finished (acc + (ss.filter (fun s => (runTest s).2)).length)) ∧
    (∀ (s : Scenario) (code : Nat),
      (runTest s).1 = some code → code = 125 ∨ code = 124) ∧
    runTests scenarios 0 = .finished 0 :=
  ⟨fun ss acc h => runTests_finished_of_no_abort ss acc h,
   runTest_abort_code, runTests_scenarios⟩

/-- Witness for `harness_exit_status` at a concrete input. -/
theorem harness_exit_status_witness :
    (∀ s ∈ [sObjectEmpty], (runTest s).1 = none) ∧
    runTests [sObjectEmpty] 0 = .finished
      (0 + (([sObjectEmpty].filter (fun s => (runTest s).2)).length)) := by
  have hmem : ∀ s ∈ [sObjectEmpty], (runTest s).1 = none := by
    intro s hs
    have hs' : s = sObjectEmpty := by simpa using hs
    rw [hs', runTest_sObjectEmpty]
  exact ⟨hmem, harness_exit_status.1 [sObjectEmpty] 0 hmem⟩

/-- C10: the harness distinguishes the two safety-violation kinds by
distinct exit codes and aborts immediately, running no further scenarios —
a nonzero return from the capacity-minus-one call exits with status 125, a
zero return from the exact-capacity call (after the short call correctly
failed) exits with status 124, and an aborting scenario fixes the batch
outcome regardless of the scenarios after it. -/
theorem harness_abort_codes :
    (∀ s : Scenario,
      ((generate_json (List.replicate (s.expected.length + 1) nulChar)
          s.jkv s.expected.length).1 ≠ 0 → runTest s = (some 125, true)) ∧
      ((generate_json (List.replicate (s.expected.length + 1) nulChar)
          s.jkv s.expected.length).1 = 0 →
        (generate_json (generate_json (List.replicate (s.expected.length + 1)
            nulChar) s.jkv s.expected.length).2 s.jkv
          (s.expected.length + 1)).1 = 0 →
        runTest s = (some 124, true))) ∧
    (∀ (s : Scenario) (rest : List Scenario) (acc code : Nat),
      (runTest s).1 = some code → runTests (s :: rest) acc = .aborted code) :=
  ⟨fun s => ⟨runTest_abort_125 s, runTest_abort_124 s⟩, runTests_cons_abort⟩

/-- Witness for `harness_abort_codes` at concrete inputs: a scenario whose
expected literal is longer than its document triggers the undetected-overflow
exit 125 and aborts a batch run, and a scenario whose literal is shorter
than the minimal document triggers the spurious-overflow exit 124. -/
theorem harness_abort_codes_witness :
    (generate_json (List.replicate (("\x7b\x7dxx" : String).length + 1) nulChar)
        ([] : JObject) ("\x7b\x7dxx" : String).length).1 ≠ 0 ∧
    runTest ⟨[], "\x7b\x7dxx"⟩ = (some 125, true) ∧
    runTest ⟨[], "x"⟩ = (some 124, true) ∧
    runTests [⟨[], "\x7b\x7dxx"⟩, sObjectEmpty] 7 = .aborted 125 := by
  have hne : (generate_json (List.replicate (("\x7b\x7dxx" : String).length + 1)
      nulChar) ([] : JObject) ("\x7b\x7dxx" : String).length).1 ≠ 0 :=
    (generate_json_fst_ne_zero_iff _ _ _).mpr (by rw [jsonDoc_nil]; decide)
  have h125 : runTest ⟨[], "\x7b\x7dxx"⟩ = (some 125, true) :=
    (harness_abort_codes.1 ⟨[], "\x7b\x7dxx"⟩).1 hne
  have h124 : runTest ⟨[], "x"⟩ = (some 124, true) :=
    (harness_abort_codes.1 ⟨[], "x"⟩).2
      (generate_json_fst_of_lt _ _ _ (by rw [jsonDoc_nil]; decide))
      (generate_json_fst_of_lt _ _ _ (by rw [jsonDoc_nil]; decide))
  exact ⟨hne, h125, h124,
    harness_abort_codes.2 _ [sObjectEmpty] 7 125 (by rw [h125])⟩

end Mtojson
